import Mathlib

/-!
Verification development for `scripts/generate_pdf.py`: a report generator
that turns an Ansible playbook execution trace (JSON) and a facts snapshot
(JSON) into a unified report (JSON + PDF).

The script is embedded shallowly: JSON values are modelled by `JVal`,
Python dictionary/sequence primitives (`d[k]`, `d.get(k, default)`,
`k in d`, `len`, iteration, truthiness, `str()`) by total or `Except`-valued
Lean functions that raise (`Except.error`) exactly where the Python
operation raises.  Numbers are modelled by `Rat`; Python's `round(x, 2)`
(documented round-half-to-even) is modelled on rationals, and the decimal
rendering of the rounded result follows Python's float `str` for values
that are exact hundredths (the only values the script renders).
-/

/-- A JSON value, as produced by `json.load`. -/
inductive JVal where
  | null
  | bool (b : Bool)
  | num (q : Rat)
  | str (s : String)
  | arr (xs : List JVal)
  | obj (fs : List (String × JVal))

/-- Python truthiness (`bool(v)`) of a JSON-decoded value. -/
def JVal.truthy : JVal → Bool
  | .null => false
  | .bool b => b
  | .num q => q != 0
  | .str s => !s.isEmpty
  | .arr xs => !xs.isEmpty
  | .obj fs => !fs.isEmpty

/-- Python `v == lit` for a string literal `lit`: true only for an equal string. -/
def JVal.eqStr : JVal → String → Bool
  | .str s, t => s == t
  | _, _ => false

/-- Is the value a JSON string? -/
def JVal.isStr : JVal → Bool
  | .str _ => true
  | _ => false

/-- First binding of key `k` in a decoded JSON object's field list
(`json.load` keeps one binding per key; lookup is by key). -/
def objGetD (fs : List (String × JVal)) (k : String) (d : JVal) : JVal :=
  (((fs.find? (fun p => p.1 == k)).map (fun p => p.2)).getD d)

/-- Python `d.get(k, default)`: defaulting lookup on a dict; on any other
value `.get` raises `AttributeError`. -/
def pyGetD : JVal → String → JVal → Except String JVal
  | .obj fs, k, d => .ok (objGetD fs k d)
  | _, _, _ => .error "AttributeError: get"

/-- Python subscript `v[k]` with a string key: `KeyError` when a dict lacks
the key, `TypeError` on strings, lists and scalars. -/
def pyIndex : JVal → String → Except String JVal
  | .obj fs, k =>
      match fs.find? (fun p => p.1 == k) with
      | some p => .ok p.2
      | none => .error ("KeyError: " ++ k)
  | .str _, _ => .error "TypeError: string indices must be integers"
  | .arr _, _ => .error "TypeError: list indices must be integers"
  | _, _ => .error "TypeError: not subscriptable"

/-- Python subscript `v[i]` with an integer index. -/
def pyIndexInt : JVal → Nat → Except String JVal
  | .arr xs, i =>
      match xs[i]? with
      | some v => .ok v
      | none => .error "IndexError: list index out of range"
  | .str s, i =>
      match s.data[i]? with
      | some c => .ok (.str (String.mk [c]))
      | none => .error "IndexError: string index out of range"
  | .obj _, _ => .error "KeyError: integer key"
  | _, _ => .error "TypeError: not subscriptable"

/-- Is `pre` a prefix of `l` (on character lists)? -/
def isPrefCh : List Char → List Char → Bool
  | [], _ => true
  | _ :: _, [] => false
  | a :: as, b :: bs => a == b && isPrefCh as bs

/-- Does `needle` occur as a contiguous run inside `hay`? -/
def containsSeq (needle : List Char) : List Char → Bool
  | [] => isPrefCh needle []
  | c :: cs => isPrefCh needle (c :: cs) || containsSeq needle cs

/-- Python `pat in s` substring test; `pat` is a fixed non-empty literal at
every use site. -/
def containsSub (s pat : String) : Bool :=
  containsSeq pat.data s.data

/-- The remainder of `hay` after the first occurrence of `needle`, when
one exists (the tail that Python `hay.split(needle, 1)[1]` returns). -/
def dropAfterSeq (needle : List Char) : List Char → Option (List Char)
  | [] => if isPrefCh needle [] then some ([] : List Char) else none
  | c :: cs =>
      if isPrefCh needle (c :: cs) then some ((c :: cs).drop needle.length)
      else dropAfterSeq needle cs

/-- Python `k in v` for a string literal `k`: key membership on dicts,
element membership on lists, substring test on strings, `TypeError` on
scalars. -/
def memKey : JVal → String → Except String Bool
  | .obj fs, k => .ok (fs.any (fun p => p.1 == k))
  | .arr xs, k => .ok (xs.any (fun x => x.eqStr k))
  | .str s, k => .ok (containsSub s k)
  | _, _ => .error "TypeError: argument not iterable"

/-- Python `len(v)`. -/
def pyLen : JVal → Except String Nat
  | .arr xs => .ok xs.length
  | .str s => .ok s.length
  | .obj fs => .ok fs.length
  | _ => .error "TypeError: object has no len"

/-- Python iteration `for x in v`: list elements, string characters,
dict keys; `TypeError` on scalars. -/
def toIter : JVal → Except String (List JVal)
  | .arr xs => .ok xs
  | .str s => .ok (s.data.map (fun c => .str (String.mk [c])))
  | .obj fs => .ok (fs.map (fun p => .str p.1))
  | _ => .error "TypeError: not iterable"

/-- Python `d.items()`: the key/value pairs of a dict (insertion order);
`AttributeError` on any other value. -/
def pyItems : JVal → Except String (List (String × JVal))
  | .obj fs => .ok fs
  | _ => .error "AttributeError: items"

/-- Coerce to a Python number for arithmetic/comparison: numbers are
themselves, bools are 0/1 (Python `bool` is an `int`), anything else is a
`TypeError`. -/
def toNum : JVal → Except String Rat
  | .num q => .ok q
  | .bool b => .ok (if b then 1 else 0)
  | _ => .error "TypeError: unsupported operand"

/-- Python `v > r` against a numeric literal `r`. -/
def jGT (v : JVal) (r : Rat) : Except String Bool :=
  (toNum v).map (fun q => decide (r < q))

/-- Round half to even (Python's documented `round` tie rule). -/
def rhe (q : Rat) : Int :=
  if q - (⌊q⌋ : Rat) < 1 / 2 then ⌊q⌋
  else if (1 : Rat) / 2 < q - (⌊q⌋ : Rat) then ⌊q⌋ + 1
  else if ⌊q⌋ % 2 = 0 then ⌊q⌋ else ⌊q⌋ + 1

/-- Python `round(q, 2)`, returned as the integer numerator of the result
over 100. -/
def pyRound2 (q : Rat) : Int :=
  rhe (q * 100)

/-- Python float `str` of a two-decimal rounded value `n / 100`: trailing
zeros stripped, at least one decimal digit kept (`str(1.0) = "1.0"`). -/
def fmtRound2 (n : Int) : String :=
  let sign := if n < 0 then "-" else ""
  let a := n.natAbs
  let ip := a / 100
  let fp := a % 100
  if fp = 0 then sign ++ toString ip ++ ".0"
  else if fp % 10 = 0 then sign ++ toString ip ++ "." ++ toString (fp / 10)
  else sign ++ toString ip ++ "." ++ (if fp < 10 then "0" else "") ++ toString fp

/-- Python number `str`: integers render bare; the script only renders
integral or two-decimal-rounded numbers, so non-integral rationals keep an
explicit fraction form here. -/
def fmtNumInt (q : Rat) : String :=
  if q.den = 1 then toString q.num else toString q.num ++ "/" ++ toString q.den

/-- Python `repr` of a JSON-decoded value, with an explicit recursion
budget so the definition is structurally recursive (on the budget).  At
every reachable call the budget dominates the value's nesting depth, so
the exhausted-budget branches are dead.  String escaping inside `repr` is
not modelled. -/
def pyReprAux (fuel : Nat) : JVal → String
  | .null => "None"
  | .bool b => if b then "True" else "False"
  | .num q => fmtNumInt q
  | .str s => "\x27" ++ s ++ "\x27"
  | .arr xs =>
      match fuel with
      | 0 => ""
      | n + 1 => "[" ++ String.intercalate ", " (xs.map (pyReprAux n)) ++ "]"
  | .obj fs =>
      match fuel with
      | 0 => ""
      | n + 1 =>
          "\x7b" ++
            String.intercalate ", "
              (fs.map (fun p => "\x27" ++ p.1 ++ "\x27: " ++ pyReprAux n p.2)) ++
          "\x7d"
termination_by structural fuel

/-- Structural size of a JSON value (an executable recursion budget for
`pyRepr`; it dominates the nesting depth). -/
def JVal.size : JVal → Nat
  | .null => 1
  | .bool _ => 1
  | .num _ => 1
  | .str _ => 1
  | .arr xs => 1 + (xs.attach.map (fun x => JVal.size x.1)).sum
  | .obj fs => 1 + (fs.attach.map (fun p => JVal.size p.1.2)).sum
decreasing_by
  all_goals simp_wf
  all_goals first
    | (have hx := List.sizeOf_lt_of_mem x.2; omega)
    | (obtain ⟨⟨k, v⟩, hm⟩ := p
       have h1 := List.sizeOf_lt_of_mem hm
       simp only [Prod.mk.sizeOf_spec] at h1
       show sizeOf v < 1 + sizeOf fs
       omega)

/-- Python `repr`, with the always-sufficient budget `JVal.size v`. -/
def JVal.pyRepr (v : JVal) : String :=
  pyReprAux (JVal.size v) v

/-- Python `str(v)` as used by f-string interpolation: scalars render
directly, containers render by `repr` (as Python's `str` does for decoded
JSON lists and dicts). -/
def JVal.pyStr : JVal → String
  | .null => "None"
  | .bool b => if b then "True" else "False"
  | .num q => fmtNumInt q
  | .str s => s
  | .arr xs => JVal.pyRepr (.arr xs)
  | .obj fs => JVal.pyRepr (.obj fs)

/-! ## `clean_task_name` (generate_pdf.py lines 21-25) -/

/-- String-level name cleaning: keep the text after the first `" : "` when
the separator occurs, else the name unchanged
(`task_name.split(' : ', 1)[1]`). -/
def cleanStr (s : String) : String :=
  match dropAfterSeq " : ".data s.data with
  | some rest => String.mk rest
  | none => s

/-- `clean_task_name(task_name)`: the Python function receives whatever the
trace carried; `' : ' in task_name` raises `TypeError` on scalars, and a
container that does contain the separator would make `.split` raise
`AttributeError`. -/
def clean_task_name : JVal → Except String JVal
  | .str s => .ok (.str (cleanStr s))
  | .arr xs =>
      if xs.any (fun x => x.eqStr " : ") then .error "AttributeError: split"
      else .ok (.arr xs)
  | .obj fs =>
      if fs.any (fun p => p.1 == " : ") then .error "AttributeError: split"
      else .ok (.obj fs)
  | _ => .error "TypeError: argument not iterable"

/-! ## Step 2: reading the facts snapshot (lines 36-50)

File system and JSON parsing are outside the embedding; their outcome is a
parameter: `none` when the facts argument was falsy, the `"none"` sentinel,
or a non-existent path (the file is never opened); `some (.error e)` when
opening or parsing raised (caught by the `except` clause and logged); and
`some (.ok raw)` when `json.load` produced `raw`. -/

/-- Body of the `try` block at lines 42-48, on a parsed facts value. -/
def readFactsStep (raw : JVal) : Except String (JVal × Option String) := do
  let hasAF ← memKey raw "ansible_facts"
  if hasAF then
    let fd ← pyIndex raw "ansible_facts"
    pure (fd, none)
  else do
    let u ← pyGetD raw "unreachable" .null
    if u.truthy then do
      let m ← pyGetD raw "msg" (.str "Unknown Error")
      pure (JVal.obj [], some ("UNREACHABLE: " ++ m.pyStr))
    else do
      let f ← pyGetD raw "failed" .null
      if f.truthy then do
        let m ← pyGetD raw "msg" (.str "Unknown Error")
        pure (JVal.obj [], some ("FAILED: " ++ m.pyStr))
      else pure (JVal.obj [], none)

/-- Lines 37-50: `facts_data` starts `{}` and `fact_error` starts `None`;
any exception inside the `try` is caught and logged, leaving both unset.
`fact_error` is `none` or a non-empty prefixed message, so Python's
truthiness test on it coincides with `Option.isSome`. -/
def readFacts : Option (Except String JVal) → JVal × Option String
  | none => (JVal.obj [], none)
  | some (.error _) => (JVal.obj [], none)
  | some (.ok raw) =>
      match readFactsStep raw with
      | .ok p => p
      | .error _ => (JVal.obj [], none)

/-! ## Facts fallback scan (lines 52-65) -/

/-- Lines 59-63: scan a matching task's per-host results for the first one
containing `'ansible_facts'`; adopt it and `break`. -/
def scanHostsFB : List (String × JVal) → Except String (Option JVal)
  | [] => .ok none
  | (_, res) :: rest => do
      let has ← memKey res "ansible_facts"
      if has then do
        let fd ← pyIndex res "ansible_facts"
        pure (some fd)
      else scanHostsFB rest

/-- Lines 56-64: the task loop of the fallback.  A task matches when its
`task.name` equals `"Gathering Facts"` or (short-circuit `or`) its
`task.action` equals `"gather_facts"`.  After a match adopts a facts value
and clears the error, `if facts_data: break` only stops when the adopted
value is truthy. -/
def scanTasksFB : List JVal → JVal → Option String → Except String (JVal × Option String)
  | [], f, e => .ok (f, e)
  | t :: rest, f, e => do
      let tt ← pyIndex t "task"
      let nm ← pyIndex tt "name"
      let isGather ←
        if nm.eqStr "Gathering Facts" then pure true
        else do
          let tt2 ← pyIndex t "task"
          let ac ← pyIndex tt2 "action"
          pure (ac.eqStr "gather_facts")
      let fe ←
        if isGather then do
          let hobj ← pyIndex t "hosts"
          let hosts ← pyItems hobj
          match ← scanHostsFB hosts with
          | some nf => pure (nf, (none : Option String))
          | none => pure (f, e)
        else pure (f, e)
      if fe.1.truthy then pure fe
      else scanTasksFB rest fe.1 fe.2

/-- Lines 55-65: the play loop, with its own `if facts_data: break`. -/
def scanPlaysFB : List JVal → JVal → Option String → Except String (JVal × Option String)
  | [], f, e => .ok (f, e)
  | p :: rest, f, e => do
      let tv ← pyIndex p "tasks"
      let tasks ← toIter tv
      let fe ← scanTasksFB tasks f e
      if fe.1.truthy then pure fe
      else scanPlaysFB rest fe.1 fe.2

/-- Lines 54-65: iterate `playbook_data['plays']`. -/
def fallbackScan (playbook f0 : JVal) (e0 : Option String) : Except String (JVal × Option String) := do
  let pv ← pyIndex playbook "plays"
  let plays ← toIter pv
  scanPlaysFB plays f0 e0

/-- Lines 37-65: facts reading plus the guarded fallback
(`if (not facts_data) and ('plays' in playbook_data)`). -/
def resolveFacts (factsRaw : Option (Except String JVal)) (playbook : JVal) :
    Except String (JVal × Option String) :=
  let fe := readFacts factsRaw
  if fe.1.truthy then .ok fe
  else do
    let hasPlays ← memKey playbook "plays"
    if hasPlays then fallbackScan playbook fe.1 fe.2
    else pure fe

/-! ## Field extraction (lines 67-116) -/

/-- Lines 68-69 and 113: total memory in MB (default 0), divided by 1024,
rounded to two decimals and rendered `"<gb> GB"`. -/
def ramStr (facts : JVal) : Except String String := do
  let mv ← pyGetD facts "ansible_memtotal_mb" (.num 0)
  let q ← toNum mv
  pure (fmtRound2 (pyRound2 (q / 1024)) ++ " GB")

/-- Lines 71-78 and 112: CPU model (entry 2 of `ansible_processor` when it
has more than two entries, else entry 0 when non-empty, else `"Unknown"`)
and vCPU count (default 1), rendered `"<model> (<n> vCPUs)"`. -/
def cpuStr (facts : JVal) : Except String String := do
  let pl ← pyGetD facts "ansible_processor" (.arr [])
  let n ← pyLen pl
  let model ←
    if n > 2 then pyIndexInt pl 2
    else if n > 0 then pyIndexInt pl 0
    else pure (JVal.str "Unknown")
  let cores ← pyGetD facts "ansible_processor_vcpus" (.num 1)
  pure (model.pyStr ++ " (" ++ cores.pyStr ++ " vCPUs)")

/-- Lines 82-85: the mount loop.  A mount is kept when
`m.get('size_total', 0) > 1073741824`; its size is
`round(m['size_total'] / (1024**3), 2)` and the entry is
`f"(mount) ((size) GB)"` via `m['mount']`. -/
def storageLoop : List JVal → List String → Except String (List String)
  | [], acc => .ok acc
  | m :: rest, acc => do
      let sz ← pyGetD m "size_total" (.num 0)
      let gt ← jGT sz 1073741824
      if gt then do
        let st ← pyIndex m "size_total"
        let q ← toNum st
        let name ← pyIndex m "mount"
        storageLoop rest (acc ++ [name.pyStr ++ " (" ++ fmtRound2 (pyRound2 (q / 1073741824)) ++ " GB)"])
      else storageLoop rest acc

/-- Lines 80-86: `ansible_mounts` (default `[]`), filtered and joined with
`", "`. -/
def storageStr (facts : JVal) : Except String String := do
  let mounts ← pyGetD facts "ansible_mounts" (.arr [])
  let ms ← toIter mounts
  let entries ← storageLoop ms []
  pure (String.intercalate ", " entries)

/-- Lines 89-97: the interface loop.  Skip `'lo'`; look up
`ansible_<iface>` in the fact set; extract `ipv4.address` and `macaddress`
with `"N/A"` defaults. -/
def netLoop (facts : JVal) : List JVal → List String → Except String (List String)
  | [], acc => .ok acc
  | iface :: rest, acc =>
      if iface.eqStr "lo" then netLoop facts rest acc
      else do
        let key := "ansible_" ++ iface.pyStr
        let mem ← memKey facts key
        if mem then do
          let details ← pyIndex facts key
          let ipv4 ← pyGetD details "ipv4" (.obj [])
          let addr ← pyGetD ipv4 "address" (.str "N/A")
          let mac ← pyGetD details "macaddress" (.str "N/A")
          netLoop facts rest (acc ++ [iface.pyStr ++ ": " ++ addr.pyStr ++ " (" ++ mac.pyStr ++ ")"])
        else netLoop facts rest acc

/-- Lines 88-101: `ansible_interfaces` (default `[]`), joined with
newlines. -/
def netStr (facts : JVal) : Except String String := do
  let ifs ← pyGetD facts "ansible_interfaces" (.arr [])
  let items ← toIter ifs
  let entries ← netLoop facts items []
  pure (String.intercalate "\n" entries)

/-- Lines 103-105: `facts_data.get('ansible_hostname') or "N/A"`, replaced
by `f"ERROR: (fact_error)"` when an error marker exists and the fact set is
falsy. -/
def hostnameVal (facts : JVal) (ferr : Option String) : Except String JVal :=
  (pyGetD facts "ansible_hostname" .null).map (fun hv0 =>
    let hv := if hv0.truthy then hv0 else .str "N/A"
    match ferr with
    | some e => if !facts.truthy then .str ("ERROR: " ++ e) else hv
    | none => hv)

/-- Line 109: `f"(distribution) (version)"`, each `.get` defaulting to
Python `None`. -/
def osStr (facts : JVal) : Except String String := do
  let d ← pyGetD facts "ansible_distribution" .null
  let v ← pyGetD facts "ansible_distribution_version" .null
  pure (d.pyStr ++ " " ++ v.pyStr)

/-- The `system_info` record of lines 107-116.  `Hostname`, `Architecture`
and `Kernel` hold raw values (Python leaves them whatever type the facts
carried); the other fields are f-string/join results. -/
structure SystemInfo where
  Hostname : JVal
  OS : String
  Architecture : JVal
  Kernel : JVal
  CPU : String
  RAM : String
  Storage : String
  Network : String

/-- Lines 67-116 in source order: memory, CPU, storage and network are
computed first, then the hostname (the only consumer of `fact_error`),
then the remaining defaulting lookups made inside the dict literal. -/
def buildSystemInfo (facts : JVal) (ferr : Option String) : Except String SystemInfo := do
  let ram ← ramStr facts
  let cpu ← cpuStr facts
  let sto ← storageStr facts
  let net ← netStr facts
  let hv ← hostnameVal facts ferr
  let os ← osStr facts
  let arch ← pyGetD facts "ansible_architecture" (.str "N/A")
  let kern ← pyGetD facts "ansible_kernel" (.str "N/A")
  pure ⟨hv, os, arch, kern, cpu, ram, sto, net⟩

/-- The Fact Resolver: lines 37-116. -/
def resolveSystemInfo (factsRaw : Option (Except String JVal)) (playbook : JVal) :
    Except String SystemInfo := do
  let fe ← resolveFacts factsRaw playbook
  buildSystemInfo fe.1 fe.2

/-! ## Task Timeline Extractor (lines 118-144) -/

/-- One `(task, status, changed)` entry of `sequential_tasks`
(lines 140-144).  `task` holds whatever `clean_task_name` returned. -/
structure TaskResult where
  task : JVal
  status : String
  changed : String

/-- Lines 130-134: the per-host status update.  `failed` always wins for
this host; `unreachable` next; `skipped` keeps `SKIPPED` only when no
failure was recorded so far; every other host outcome — including a
skipped host after a failure — falls into the final `else` and sets
`"OK"`. -/
def stepStatus (status : String) (res : JVal) : Except String String := do
  let f ← pyGetD res "failed" .null
  if f.truthy then pure "FAILED"
  else do
    let u ← pyGetD res "unreachable" .null
    if u.truthy then pure "UNREACHABLE"
    else do
      let sk ← pyGetD res "skipped" .null
      if sk.truthy && status != "FAILED" then pure "SKIPPED"
      else pure "OK"

/-- Lines 130-136: fold the host outcomes in dict (insertion) order,
starting from `("SKIPPED", "No")`; any host with a truthy `changed` flips
`changed` to `"Yes"`. -/
def foldHosts : List (String × JVal) → String → String → Except String (String × String)
  | [], status, changed => .ok (status, changed)
  | (_, res) :: rest, status, changed => do
      let st ← stepStatus status res
      let ch ← pyGetD res "changed" .null
      foldHosts rest st (if ch.truthy then "Yes" else changed)

/-- Lines 122-144: the task loop of one play, in source evaluation order
(name, cleaning, hosts and the fold are all evaluated before the
`Gathering Facts` name-only `continue`). -/
def processTasks : List JVal → List TaskResult → Except String (List TaskResult)
  | [], acc => .ok acc
  | t :: rest, acc => do
      let tt ← pyIndex t "task"
      let raw ← pyIndex tt "name"
      let clean ← clean_task_name raw
      let hobj ← pyIndex t "hosts"
      let hres ← pyItems hobj
      let sc ← foldHosts hres "SKIPPED" "No"
      if raw.eqStr "Gathering Facts" then processTasks rest acc
      else processTasks rest (acc ++ [⟨clean, sc.1, sc.2⟩])

/-- Lines 121-144: accumulate `sequential_tasks` across the plays. -/
def processPlays : List JVal → List TaskResult → Except String (List TaskResult)
  | [], acc => .ok acc
  | p :: rest, acc => do
      let tv ← pyIndex p "tasks"
      let tasks ← toIter tv
      let acc2 ← processTasks tasks acc
      processPlays rest acc2

/-- Lines 119-144: `sequential_tasks`, empty when the trace has no
`'plays'` key. -/
def buildTimeline (playbook : JVal) : Except String (List TaskResult) := do
  let has ← memKey playbook "plays"
  if has then do
    let pv ← pyIndex playbook "plays"
    let plays ← toIter pv
    processPlays plays []
  else pure []

/-! ## Report assembly and the CLI surface (lines 146-258) -/

/-- The `final_json` document of lines 147-151; the timestamp is injected
(the script takes `datetime.now()`). -/
structure Report where
  timestamp : String
  system_info : SystemInfo
  playbook_execution : List TaskResult

/-- The pure core of `generate_report` after the playbook JSON has been
parsed: facts resolution and extraction (lines 36-116), then the timeline
(lines 118-144), then the merged document (lines 146-151).  Any
`Except.error` is an uncaught Python exception raised before
`final_report.json` is written. -/
def generate_report_core (playbook : JVal) (factsRaw : Option (Except String JVal))
    (timestamp : String) : Except String Report := do
  let si ← resolveSystemInfo factsRaw playbook
  let tl ← buildTimeline playbook
  pure ⟨timestamp, si, tl⟩

/-- The PDF phase (lines 158-250) is modelled only as completing or
crashing: `v.replace('\n', ', ')` at line 212 requires the raw-valued
fields (`Hostname`, `Architecture`, `Kernel`) to be strings, and the task
rows are treated likewise.  Page-layout geometry is not modelled. -/
def renderOk (r : Report) : Bool :=
  r.system_info.Hostname.isStr && r.system_info.Architecture.isStr &&
    r.system_info.Kernel.isStr && r.playbook_execution.all (fun t => t.task.isStr)

/-- Observable outcome of one invocation: the process exit status, whether
the usage line was printed, and which artifacts were written to the report
directory. -/
structure RunResult where
  exitCode : Nat
  usagePrinted : Bool
  artifacts : List String

/-- `generate_report` (lines 27-251) at the artifact/exit level.  A
playbook load failure is caught at lines 32-34: the error is printed and
the function simply returns, so the interpreter exits with status 0 and
neither artifact exists.  An uncaught exception in the core aborts before
the JSON is written (exit 1); a crash while rendering leaves
`final_report.json` behind. -/
def runReport (playbookLoad : Except String JVal) (factsRaw : Option (Except String JVal))
    (timestamp : String) : RunResult :=
  match playbookLoad with
  | .error _ => ⟨0, false, []⟩
  | .ok pb =>
      match generate_report_core pb factsRaw timestamp with
      | .error _ => ⟨1, false, []⟩
      | .ok r =>
          if renderOk r then ⟨0, false, ["final_report.json", "report.pdf"]⟩
          else ⟨1, false, ["final_report.json"]⟩

/-- The `__main__` block (lines 253-258).  `sys.argv` includes the program
name, so `len(sys.argv) < 3` prints usage and exits 1 only when fewer than
two arguments were supplied; with exactly two, the guard passes and
`sys.argv[3]` raises an uncaught `IndexError` (exit status 1, no usage
line).  Loading and parsing of the two files is abstracted as in
`readFacts`. -/
def mainModel (argv : List String) (playbookLoad : Except String JVal)
    (factsRaw : Option (Except String JVal)) (timestamp : String) : RunResult :=
  if argv.length < 3 then ⟨1, true, []⟩
  else
    match argv with
    | _ :: _ :: _ :: _ :: _ => runReport playbookLoad factsRaw timestamp
    | _ => ⟨1, false, []⟩

/-! ## Test fixtures: well-formed trace snippets used by the theorems -/

/-- A task record for fixture traces: display name, action identifier and
per-host outcome dicts. -/
structure TaskSpec where
  name : String
  action : String
  hosts : List (String × List (String × JVal))

/-- The trace representation of a `TaskSpec`
(`(task: (name, action), hosts: (...))`). -/
def mkTask (t : TaskSpec) : JVal :=
  .obj [("task", .obj [("name", .str t.name), ("action", .str t.action)]),
        ("hosts", .obj (t.hosts.map (fun p => (p.1, JVal.obj p.2))))]

/-- A single-play trace holding the given task records. -/
def mkTrace1 (tasks : List JVal) : JVal :=
  .obj [("plays", .arr [.obj [("tasks", .arr tasks)]])]

/-- The facts dict embedded in the fixture bootstrap task. -/
def node1Facts : JVal :=
  .obj [("ansible_hostname", .str "node1")]

/-- A bootstrap `Gathering Facts` task whose one host outcome embeds
`node1Facts`. -/
def gatherTask : JVal :=
  mkTask ⟨"Gathering Facts", "gather_facts", [("h", [("ansible_facts", node1Facts)])]⟩

/-- A trace whose first play starts with `gatherTask`, followed by
arbitrary further task records and plays. -/
def gatherTrace (restT restP : List JVal) : JVal :=
  .obj [("plays", .arr (.obj [("tasks", .arr (gatherTask :: restT))] :: restP))]

/-- A facts snapshot envelope signalling a failed collection. -/
def failedEnvelope (msg : String) : JVal :=
  .obj [("failed", .bool true), ("msg", .str msg)]

/-- Pure form of `stepStatus` for a dict-shaped host outcome (used to state
the fold lemmas; `stepStatus` never raises on a dict). -/
def stepStatusPure (status : String) (fs : List (String × JVal)) : String :=
  if (objGetD fs "failed" .null).truthy then "FAILED"
  else if (objGetD fs "unreachable" .null).truthy then "UNREACHABLE"
  else if (objGetD fs "skipped" .null).truthy && status != "FAILED" then "SKIPPED"
  else "OK"

/-- Pure form of `foldHosts` for dict-shaped host outcomes. -/
def foldHostsPure : List (String × List (String × JVal)) → String → String → String × String
  | [], status, changed => (status, changed)
  | (_, fs) :: rest, status, changed =>
      foldHostsPure rest (stepStatusPure status fs)
        (if (objGetD fs "changed" .null).truthy then "Yes" else changed)

/-- The timeline the extractor produces for a fixture task list: the tasks
whose display name is not `"Gathering Facts"`, in order, with cleaned
names and folded status/changed. -/
def timelineOf (ts : List TaskSpec) : List TaskResult :=
  (ts.filter (fun t => t.name != "Gathering Facts")).map
    (fun t => ⟨.str (cleanStr t.name),
               (foldHostsPure t.hosts "SKIPPED" "No").1,
               (foldHostsPure t.hosts "SKIPPED" "No").2⟩)

/-- Every `SystemInfo` field except `Hostname`. -/
def stripHostname (si : SystemInfo) :
    String × JVal × JVal × String × String × String × String :=
  (si.OS, si.Architecture, si.Kernel, si.CPU, si.RAM, si.Storage, si.Network)

/-! ## Helper lemmas -/

theorem ebind_ok {α β : Type} (a : α) (f : α → Except String β) :
    (Except.ok a >>= f) = f a := rfl

theorem ebind_err {α β : Type} (m : String) (f : α → Except String β) :
    ((Except.error m : Except String α) >>= f) = .error m := rfl

theorem stepStatus_obj (st : String) (fs : List (String × JVal)) :
    stepStatus st (.obj fs) = .ok (stepStatusPure st fs) := by
  unfold stepStatus stepStatusPure
  simp only [pyGetD, ebind_ok]
  by_cases h1 : (objGetD fs "failed" .null).truthy <;> simp only [h1, if_true, if_false] <;>
    try rfl
  by_cases h2 : (objGetD fs "unreachable" .null).truthy <;>
    simp only [h2, if_true, if_false] <;> try rfl
  by_cases h3 : (objGetD fs "skipped" .null).truthy && st != "FAILED" <;>
    simp only [h3, if_true, if_false] <;> rfl

theorem foldHosts_obj (hs : List (String × List (String × JVal))) (st ch : String) :
    foldHosts (hs.map (fun p => (p.1, JVal.obj p.2))) st ch = .ok (foldHostsPure hs st ch) := by
  induction hs generalizing st ch with
  | nil => rfl
  | cons p rest ih =>
      obtain ⟨k, fs⟩ := p
      simp only [List.map_cons, foldHosts, foldHostsPure]
      rw [stepStatus_obj]
      simp only [ebind_ok, pyGetD]
      exact ih _ _

theorem processTasks_spec (ts : List TaskSpec) (acc : List TaskResult) :
    processTasks (ts.map mkTask) acc = .ok (acc ++ timelineOf ts) := by
  induction ts generalizing acc with
  | nil => simp [processTasks, timelineOf]
  | cons t rest ih =>
      rw [show processTasks ((t :: rest).map mkTask) acc =
            (foldHosts (t.hosts.map (fun p => (p.1, JVal.obj p.2))) "SKIPPED" "No").bind
              (fun sc =>
                if (JVal.str t.name).eqStr "Gathering Facts" then
                  processTasks (rest.map mkTask) acc
                else
                  processTasks (rest.map mkTask)
                    (acc ++ [⟨.str (cleanStr t.name), sc.1, sc.2⟩])) from rfl]
      rw [foldHosts_obj]
      show (if (JVal.str t.name).eqStr "Gathering Facts" then
              processTasks (rest.map mkTask) acc
            else processTasks (rest.map mkTask)
              (acc ++ [⟨.str (cleanStr t.name),
                        (foldHostsPure t.hosts "SKIPPED" "No").1,
                        (foldHostsPure t.hosts "SKIPPED" "No").2⟩]))
          = .ok (acc ++ timelineOf (t :: rest))
      rw [show JVal.eqStr (.str t.name) "Gathering Facts" = (t.name == "Gathering Facts")
            from rfl]
      by_cases h : (t.name == "Gathering Facts") = true
      · rw [if_pos h, ih]
        simp [timelineOf, List.filter_cons, bne, h]
      · rw [if_neg h, ih]
        simp [timelineOf, List.filter_cons, bne, h, List.append_assoc]

theorem buildTimeline_mkTrace1 (ts : List TaskSpec) :
    buildTimeline (mkTrace1 (ts.map mkTask)) = .ok (timelineOf ts) := by
  rw [show buildTimeline (mkTrace1 (ts.map mkTask))
        = (processTasks (ts.map mkTask) []).bind (fun acc2 => processPlays [] acc2) from rfl]
  rw [processTasks_spec]
  rfl

theorem pyRound2_zero : pyRound2 ((0 : Rat) / 1024) = 0 := by
  unfold pyRound2 rhe
  norm_num

theorem pyRound2_one_gib : pyRound2 ((1073741825 : Rat) / 1073741824) = 100 := by
  unfold pyRound2 rhe
  have h : ((1073741825 : Rat) / 1073741824) * 100 = 26843545625 / 268435456 := by norm_num
  rw [h]
  have hf : ⌊(26843545625 : Rat) / 268435456⌋ = 100 := by
    rw [Int.floor_eq_iff]
    constructor <;> norm_num
  rw [hf]
  norm_num

theorem ramStr_no_mem (fs : List (String × JVal))
    (h : objGetD fs "ansible_memtotal_mb" (.num 0) = .num 0) :
    ramStr (.obj fs) = .ok "0.0 GB" := by
  unfold ramStr
  rw [show pyGetD (JVal.obj fs) "ansible_memtotal_mb" (.num 0)
        = .ok (objGetD fs "ansible_memtotal_mb" (.num 0)) from rfl, h, ebind_ok]
  rw [show toNum (JVal.num 0) = .ok (0 : Rat) from rfl, ebind_ok, pyRound2_zero]
  rfl

/-! ## Claim theorems -/

/-- Claim C1.  The claim says a task with any failed host reconciles to
FAILED regardless of host order, FAILED never being overwritten.  The code
contradicts this: in the fold of lines 130-134 the final `else` branch
sets `"OK"` unconditionally, so a host with no flags that is iterated
after a failed host overwrites `"FAILED"` with `"OK"` (the
`status != "FAILED"` guard protects only the `skipped` branch).  Here a
task whose hosts are, in order, `h1` with `failed = true` and `h2` with no
flags is reconciled to `OK`, not `FAILED`. -/
theorem c1_failed_status_overwritten :
    buildTimeline (mkTrace1 [mkTask ⟨"T", "cmd", [("h1", [("failed", .bool true)]), ("h2", [])]⟩])
      = .ok [⟨.str "T", "OK", "No"⟩] := by
  rfl

/-- Claim C2, counterexample.  The claim says the timeline excludes a task
when its name is `"Gathering Facts"` OR its action is `"gather_facts"`.
Line 138 tests only `task_name_raw == "Gathering Facts"`: a task named
`"Setup"` with action `"gather_facts"` is NOT excluded — the timeline for
a trace holding only that task is non-empty. -/
theorem c2_action_task_not_excluded :
    buildTimeline (mkTrace1 [mkTask ⟨"Setup", "gather_facts", []⟩])
      = .ok [⟨.str "Setup", "SKIPPED", "No"⟩] := by
  rfl

/-- Claim C2, amended.  The timeline contains an entry for a trace task if
and only if its display name is not exactly `"Gathering Facts"`; the
action identifier is never consulted by the exclusion (it matters only to
the facts fallback of lines 52-65).  Stated over a single-play trace of
well-formed task records: the emitted task names are exactly the cleaned
names of the tasks whose display name differs from `"Gathering Facts"`,
in order. -/
theorem c2_exclusion_name_only (ts : List TaskSpec) :
    (buildTimeline (mkTrace1 (ts.map mkTask))).map (List.map TaskResult.task)
      = .ok ((ts.filter (fun t => t.name != "Gathering Facts")).map
              (fun t => JVal.str (cleanStr t.name))) := by
  rw [buildTimeline_mkTrace1]
  simp [timelineOf, Except.map, List.map_map, Function.comp]

/-- Claim C3, counterexample.  The claim says every absent field is
substituted by `"N/A"`, `"Unknown"` or `0`.  On an empty fact set the OS
field is `"None None"` (both `.get` calls at line 109 default to Python
`None`) and the CPU field is `"Unknown (1 vCPUs)"` (line 78 defaults
`ansible_processor_vcpus` to `1`): neither `None` nor `1` is among the
named defaults. -/
theorem c3_defaults_not_as_named :
    (buildSystemInfo (.obj []) none).map (fun si => (si.OS, si.CPU))
      = .ok ("None None", "Unknown (1 vCPUs)") := by
  unfold buildSystemInfo
  rw [ramStr_no_mem [] rfl, ebind_ok]
  rfl

/-- Claim C3, amended.  On an empty fact set every `SystemInfo` field is
defined, with these defaults: Hostname/Architecture/Kernel `"N/A"`, CPU
model `"Unknown"` but vCPU count defaulting to `1`, memory defaulting to
`0` (RAM `"0.0 GB"`), distribution and version defaulting to Python
`None` (OS `"None None"`), Storage and Network empty. -/
theorem c3_empty_facts_record :
    buildSystemInfo (.obj []) none
      = .ok ⟨.str "N/A", "None None", .str "N/A", .str "N/A",
             "Unknown (1 vCPUs)", "0.0 GB", "", ""⟩ := by
  unfold buildSystemInfo
  rw [ramStr_no_mem [] rfl, ebind_ok]
  rfl

/-- Claim C4.  With the facts source absent (the `"none"` sentinel) and a
trace whose first play's first task is a `Gathering Facts` task whose one
host outcome embeds `ansible_hostname = "node1"`, the resolver adopts that
fact set and yields Hostname `"node1"`; the error marker is cleared even
when the snapshot had signalled a failure first; and the result is
independent of whatever task records and plays follow — even records the
scan could not process — because both loop levels stop as soon as a truthy
fact set is found. -/
theorem c4_fallback_hostname_node1 :
    (∀ restT restP : List JVal,
        resolveFacts none (gatherTrace restT restP) = .ok (node1Facts, none)
        ∧ resolveSystemInfo none (gatherTrace restT restP)
            = .ok ⟨.str "node1", "None None", .str "N/A", .str "N/A",
                   "Unknown (1 vCPUs)", "0.0 GB", "", ""⟩)
    ∧ (∀ restT restP : List JVal,
        resolveFacts (some (.ok (failedEnvelope "prior"))) (gatherTrace restT restP)
          = .ok (node1Facts, none)) := by
  refine ⟨fun restT restP => ⟨rfl, ?_⟩, fun restT restP => rfl⟩
  rw [show resolveSystemInfo none (gatherTrace restT restP)
        = buildSystemInfo (.obj [("ansible_hostname", .str "node1")]) none from rfl]
  unfold buildSystemInfo
  rw [ramStr_no_mem [("ansible_hostname", .str "node1")] rfl, ebind_ok]
  rfl

/-- Claim C5.  When the facts snapshot signals `failed` with
`msg = "boom"` and the trace offers no fallback facts, the Hostname field
is `"ERROR: FAILED: boom"`; and the Hostname is the only `SystemInfo`
field that can depend on the error marker — all other fields (and any
raised error) are identical whatever the marker is. -/
theorem c5_error_marker_hostname_only :
    resolveSystemInfo (some (.ok (failedEnvelope "boom"))) (.obj [])
      = .ok ⟨.str "ERROR: FAILED: boom", "None None", .str "N/A", .str "N/A",
             "Unknown (1 vCPUs)", "0.0 GB", "", ""⟩
    ∧ ∀ (f : JVal) (e e' : Option String),
        (buildSystemInfo f e).map stripHostname = (buildSystemInfo f e').map stripHostname := by
  constructor
  · rw [show resolveSystemInfo (some (.ok (failedEnvelope "boom"))) (.obj [])
          = buildSystemInfo (.obj []) (some "FAILED: boom") from rfl]
    unfold buildSystemInfo
    rw [ramStr_no_mem [] rfl, ebind_ok]
    rfl
  · intro f e e'
    unfold buildSystemInfo hostnameVal
    cases ramStr f <;> try rfl
    cases cpuStr f <;> try rfl
    cases storageStr f <;> try rfl
    cases netStr f <;> try rfl
    cases pyGetD f "ansible_hostname" JVal.null <;> try rfl
    cases osStr f <;> try rfl
    cases pyGetD f "ansible_architecture" (JVal.str "N/A") <;> try rfl
    cases pyGetD f "ansible_kernel" (JVal.str "N/A") <;> rfl

/-- Claim C6, counterexample.  The claim says a missing/unparseable trace
makes the program terminate with a non-zero exit status.  In the code the
load failure is caught at lines 32-34 and `generate_report` simply
returns, so the process ends normally: exit status 0 (no artifacts, no
usage line). -/
theorem c6_trace_error_exit_zero :
    mainModel ["generate_pdf.py", "trace.json", "facts.json", "reports"]
        (.error "No such file or directory") none "2026-10-12T00:00:00"
      = ⟨0, false, []⟩ := by
  rfl

/-- Claim C6, amended.  For every invocation carrying all three arguments
whose execution trace is missing or unparseable, the program aborts
without producing either output artifact, but it terminates with exit
status 0 (the failure is only logged, never reflected in the exit
status). -/
theorem c6_trace_error_no_artifacts (p a b c : String) (rest : List String) (msg ts : String)
    (factsRaw : Option (Except String JVal)) :
    mainModel (p :: a :: b :: c :: rest) (.error msg) factsRaw ts = ⟨0, false, []⟩ := by
  unfold mainModel
  rw [if_neg (by simp only [List.length_cons]; omega)]
  rfl

/-- Claim C7, counterexample.  The claim says the Fact Resolver never
raises on any input.  It does: a mount that passes the size filter but has
no `mount` key makes line 85 raise `KeyError`, and a fallback scan over a
trace whose `plays` entry is a number makes line 56 raise `TypeError`. -/
theorem c7_extraction_can_raise :
    buildSystemInfo (.obj [("ansible_mounts", .arr [.obj [("size_total", .num 2147483648)]])]) none
      = .error "KeyError: mount"
    ∧ resolveFacts none (.obj [("plays", .arr [.num 5])])
      = .error "TypeError: not subscriptable" := by
  exact ⟨rfl, rfl⟩

/-- Claim C7, amended.  The resolver's defaulting lookups do tolerate
absent keys — on a fact set with no keys at all, extraction succeeds for
every error-marker state, producing the full default record — but
present-yet-malformed values (e.g. a qualifying mount with no `mount` key,
or a malformed play record during the fallback scan) raise. -/
theorem c7_absent_keys_never_raise (e : Option String) :
    buildSystemInfo (.obj []) e
      = .ok ⟨(match e with
              | none => JVal.str "N/A"
              | some m => .str ("ERROR: " ++ m)),
             "None None", .str "N/A", .str "N/A",
             "Unknown (1 vCPUs)", "0.0 GB", "", ""⟩ := by
  cases e <;> (unfold buildSystemInfo; rw [ramStr_no_mem [] rfl, ebind_ok]; rfl)

/-- Claim C8.  The storage filter's threshold is strict and binary:
a mount of exactly 1073741824 bytes (one GiB, 2 to the 30th) is excluded
while 1073741825 bytes is included and rendered `"1.0 GB"` (size divided
by 2 to the 30th, rounded to two decimals); and for any single mount with
a numeric `size_total` and a string `mount` name, an entry is produced if
and only if `size_total` strictly exceeds 1073741824. -/
theorem c8_storage_threshold :
    storageStr (.obj [("ansible_mounts",
        .arr [.obj [("size_total", .num 1073741824), ("mount", .str "/a")],
              .obj [("size_total", .num 1073741825), ("mount", .str "/b")]])])
      = .ok "/b (1.0 GB)"
    ∧ ∀ (q : Rat) (name : String),
        storageLoop [.obj [("size_total", .num q), ("mount", .str name)]] []
          = .ok (if 1073741824 < q then
                   [name ++ " (" ++ fmtRound2 (pyRound2 (q / 1073741824)) ++ " GB)"]
                 else []) := by
  constructor
  · have h1 : fmtRound2 (pyRound2 ((1073741825 : Rat) / 1073741824)) = "1.0" := by
      rw [pyRound2_one_gib]
      rfl
    rw [show storageStr (.obj [("ansible_mounts",
          .arr [.obj [("size_total", .num 1073741824), ("mount", .str "/a")],
                .obj [("size_total", .num 1073741825), ("mount", .str "/b")]])])
        = .ok (String.intercalate ", "
            ["/b (" ++ fmtRound2 (pyRound2 ((1073741825 : Rat) / 1073741824)) ++ " GB)"])
        from rfl]
    rw [h1]
    rfl
  · intro q name
    rw [show storageLoop [.obj [("size_total", .num q), ("mount", .str name)]] []
          = (if decide ((1073741824 : Rat) < q) then
               Except.ok ([name ++ " (" ++ fmtRound2 (pyRound2 (q / 1073741824)) ++ " GB)"])
             else .ok ([] : List String)) from rfl]
    by_cases h : (1073741824 : Rat) < q
    · simp [h]
    · simp [h]

/-- Claim C9, counterexample.  The claim says every invocation missing a
required input prints the usage message.  The guard at line 254 is
`len(sys.argv) < 3`, which counts the program name: an invocation
supplying exactly two of the three inputs passes the guard, prints no
usage line, and crashes on `sys.argv[3]`. -/
theorem c9_two_args_no_usage :
    mainModel ["generate_pdf.py", "playbook.json", "facts.json"] (.ok (.obj [])) none "T"
      = ⟨1, false, []⟩ := by
  rfl

/-- Claim C9, amended.  Every invocation missing one or more of the three
required inputs terminates with the non-zero status 1, but the usage
message is printed only when fewer than two inputs are supplied; with
exactly two, the program dies on an uncaught `IndexError` from
`sys.argv[3]` without printing usage. -/
theorem c9_missing_args_behavior (p a b : String) (pl : Except String JVal)
    (fr : Option (Except String JVal)) (ts : String) :
    mainModel [p] pl fr ts = ⟨1, true, []⟩
    ∧ mainModel [p, a] pl fr ts = ⟨1, true, []⟩
    ∧ mainModel [p, a, b] pl fr ts = ⟨1, false, []⟩ := by
  exact ⟨rfl, rfl, rfl⟩

/-- Claim C10.  A task whose per-host outcome mapping is empty keeps the
fold's initial values: the emitted TaskResult has status `"SKIPPED"` (not
`"OK"`) and changed `"No"` — and is emitted exactly when the task is not
named `"Gathering Facts"`. -/
theorem c10_empty_hosts_skipped (nm ac : String) :
    buildTimeline (mkTrace1 [mkTask ⟨nm, ac, []⟩])
      = .ok (if nm == "Gathering Facts" then []
             else [⟨.str (cleanStr nm), "SKIPPED", "No"⟩]) := by
  have h := buildTimeline_mkTrace1 [⟨nm, ac, []⟩]
  simp only [List.map_cons, List.map_nil] at h
  rw [h]
  by_cases hn : (nm == "Gathering Facts") = true
  · simp [timelineOf, foldHostsPure, List.filter_cons, bne, hn]
  · simp [timelineOf, foldHostsPure, List.filter_cons, bne, hn]
